import Mathlib

/-!
Verification development for the `kook.go` webhook ingestion and dispatch
pipeline (`kook/message.go`: `decodeRequestBody`, `tryDecryptBody`,
`decryptWebhookPayload`, `pkcs7Unpad`, `WebhookHandler.HandleRequest`,
`WebhookHandler.handleMessage`, `WebhookHandler.handleEvent`).

Bytes are modelled as `List Nat` (each element a byte value); Go strings used
as byte sequences (keys, base64 text) are likewise `List Nat`.  Fallible Go
functions returning `(T, error)` are modelled as `Except`/`Option` values with
one error constructor per distinct `fmt.Errorf` site the claims distinguish.
The Go standard library collaborators are modelled as follows: `encoding/base64`
(`StdEncoding.DecodeString`) is implemented concretely (`base64Decode`),
`crypto/aes` + `crypto/cipher` (AES-256-CBC decryption) are implemented
concretely (`aesCbcDecrypt`, checked against the FIPS-197 C.3 vector below),
and `compress/gzip` / `compress/zlib` readers are abstract function parameters
since no claim depends on their internals.
-/

set_option maxRecDepth 100000

namespace KookWebhook

/-! ## Base64 (Go `encoding/base64` StdEncoding decoding)

Go's `StdEncoding.DecodeString` uses the standard alphabet, requires `=`
padding closing the final quantum, rejects any other malformed input, and
ignores `\r` and `\n` characters. -/

/-- Value of one base64 alphabet byte, `none` for a byte outside the alphabet. -/
def b64Val (c : Nat) : Option Nat :=
  if 65 ≤ c ∧ c ≤ 90 then some (c - 65)
  else if 97 ≤ c ∧ c ≤ 122 then some (c - 71)
  else if 48 ≤ c ∧ c ≤ 57 then some (c + 4)
  else if c = 43 then some 62
  else if c = 47 then some 63
  else none

/-- Decode base64 text, already stripped of CR/LF, as a sequence of 4-byte
quantums; `=` (byte 61) may close the final quantum only. -/
def base64DecodeGroups : List Nat → Option (List Nat)
  | [] => some []
  | a :: b :: c :: d :: rest => do
      let va ← b64Val a
      let vb ← b64Val b
      if c = 61 then
        if d = 61 ∧ rest = [] then
          some [va * 4 + vb / 16]
        else none
      else do
        let vc ← b64Val c
        if d = 61 then
          if rest = [] then some [va * 4 + vb / 16, (vb % 16) * 16 + vc / 4]
          else none
        else do
          let vd ← b64Val d
          let tail ← base64DecodeGroups rest
          some ([va * 4 + vb / 16, (vb % 16) * 16 + vc / 4, (vc % 4) * 64 + vd] ++ tail)
  | _ => none

/-- Model of Go `base64.StdEncoding.DecodeString` (on the byte sequence of the
string): CR and LF are ignored, everything else must form valid padded
quantums. -/
def base64Decode (input : List Nat) : Option (List Nat) :=
  base64DecodeGroups (input.filter (fun c => decide (c ≠ 10) && decide (c ≠ 13)))

/-! ## AES-256 block decryption and CBC mode (Go `crypto/aes`, `crypto/cipher`)

State and blocks are flat 16-byte lists in the FIPS-197 byte order (byte `n`
holds row `n % 4` of column `n / 4`). -/

/-- The AES forward S-box, as sixteen rows of sixteen entries. -/
def sboxTable : List (List Nat) := [
  [99, 124, 119, 123, 242, 107, 111, 197, 48, 1, 103, 43, 254, 215, 171, 118],
  [202, 130, 201, 125, 250, 89, 71, 240, 173, 212, 162, 175, 156, 164, 114, 192],
  [183, 253, 147, 38, 54, 63, 247, 204, 52, 165, 229, 241, 113, 216, 49, 21],
  [4, 199, 35, 195, 24, 150, 5, 154, 7, 18, 128, 226, 235, 39, 178, 117],
  [9, 131, 44, 26, 27, 110, 90, 160, 82, 59, 214, 179, 41, 227, 47, 132],
  [83, 209, 0, 237, 32, 252, 177, 91, 106, 203, 190, 57, 74, 76, 88, 207],
  [208, 239, 170, 251, 67, 77, 51, 133, 69, 249, 2, 127, 80, 60, 159, 168],
  [81, 163, 64, 143, 146, 157, 56, 245, 188, 182, 218, 33, 16, 255, 243, 210],
  [205, 12, 19, 236, 95, 151, 68, 23, 196, 167, 126, 61, 100, 93, 25, 115],
  [96, 129, 79, 220, 34, 42, 144, 136, 70, 238, 184, 20, 222, 94, 11, 219],
  [224, 50, 58, 10, 73, 6, 36, 92, 194, 211, 172, 98, 145, 149, 228, 121],
  [231, 200, 55, 109, 141, 213, 78, 169, 108, 86, 244, 234, 101, 122, 174, 8],
  [186, 120, 37, 46, 28, 166, 180, 198, 232, 221, 116, 31, 75, 189, 139, 138],
  [112, 62, 181, 102, 72, 3, 246, 14, 97, 53, 87, 185, 134, 193, 29, 158],
  [225, 248, 152, 17, 105, 217, 142, 148, 155, 30, 135, 233, 206, 85, 40, 223],
  [140, 161, 137, 13, 191, 230, 66, 104, 65, 153, 45, 15, 176, 84, 187, 22]]

/-- The AES inverse S-box, as sixteen rows of sixteen entries. -/
def invSboxTable : List (List Nat) := [
  [82, 9, 106, 213, 48, 54, 165, 56, 191, 64, 163, 158, 129, 243, 215, 251],
  [124, 227, 57, 130, 155, 47, 255, 135, 52, 142, 67, 68, 196, 222, 233, 203],
  [84, 123, 148, 50, 166, 194, 35, 61, 238, 76, 149, 11, 66, 250, 195, 78],
  [8, 46, 161, 102, 40, 217, 36, 178, 118, 91, 162, 73, 109, 139, 209, 37],
  [114, 248, 246, 100, 134, 104, 152, 22, 212, 164, 92, 204, 93, 101, 182, 146],
  [108, 112, 72, 80, 253, 237, 185, 218, 94, 21, 70, 87, 167, 141, 157, 132],
  [144, 216, 171, 0, 140, 188, 211, 10, 247, 228, 88, 5, 184, 179, 69, 6],
  [208, 44, 30, 143, 202, 63, 15, 2, 193, 175, 189, 3, 1, 19, 138, 107],
  [58, 145, 17, 65, 79, 103, 220, 234, 151, 242, 207, 206, 240, 180, 230, 115],
  [150, 172, 116, 34, 231, 173, 53, 133, 226, 249, 55, 232, 28, 117, 223, 110],
  [71, 241, 26, 113, 29, 41, 197, 137, 111, 183, 98, 14, 170, 24, 190, 27],
  [252, 86, 62, 75, 198, 210, 121, 32, 154, 219, 192, 254, 120, 205, 90, 244],
  [31, 221, 168, 51, 136, 7, 199, 49, 177, 18, 16, 89, 39, 128, 236, 95],
  [96, 81, 127, 169, 25, 181, 74, 13, 45, 229, 122, 159, 147, 201, 156, 239],
  [160, 224, 59, 77, 174, 42, 245, 176, 200, 235, 187, 60, 131, 83, 153, 97],
  [23, 43, 4, 126, 186, 119, 214, 38, 225, 105, 20, 99, 85, 33, 12, 125]]

/-- Forward S-box lookup. -/
def sbox (b : Nat) : Nat := (sboxTable.getD (b / 16) []).getD (b % 16) 0

/-- Inverse S-box lookup. -/
def invSbox (b : Nat) : Nat := (invSboxTable.getD (b / 16) []).getD (b % 16) 0

/-- Multiplication by `x` in GF(2^8) modulo the AES polynomial. -/
def xtime (a : Nat) : Nat := if 128 ≤ a then ((2 * a) % 256) ^^^ 27 else 2 * a

/-- GF(2^8) multiplication by 9. -/
def mul9 (a : Nat) : Nat := xtime (xtime (xtime a)) ^^^ a

/-- GF(2^8) multiplication by 11. -/
def mul11 (a : Nat) : Nat := xtime (xtime (xtime a) ^^^ a) ^^^ a

/-- GF(2^8) multiplication by 13. -/
def mul13 (a : Nat) : Nat := xtime (xtime (xtime a ^^^ a)) ^^^ a

/-- GF(2^8) multiplication by 14. -/
def mul14 (a : Nat) : Nat := xtime (xtime (xtime a ^^^ a) ^^^ a)

/-- Bytewise XOR of two equal-length byte lists. -/
def xorBytes (a b : List Nat) : List Nat := List.zipWith (fun x y => x ^^^ y) a b

/-- Split a byte list into 4-byte words (dropping a ragged tail, which never
arises on the 32-byte keys used here). -/
def chunk4 : List Nat → List (List Nat)
  | a :: b :: c :: d :: rest => [a, b, c, d] :: chunk4 rest
  | _ => []

/-- Apply the S-box to each byte of a word. -/
def subWord (w : List Nat) : List Nat := w.map sbox

/-- Rotate a word left by one byte. -/
def rotWord : List Nat → List Nat
  | a :: rest => rest ++ [a]
  | [] => []

/-- The AES round constants: `rconVal i` is `x^(i-1)` in GF(2^8). -/
def rconVal : Nat → Nat
  | 0 => 0
  | Nat.succ n => (List.range n).foldl (fun a _ => xtime a) 1

/-- One step of the AES-256 key expansion: given the word list built so far,
append the next word (FIPS-197 §5.2 with `Nk = 8`). -/
def keyExpandStep (ws : List (List Nat)) : List (List Nat) :=
  let i := ws.length
  let temp := (ws.getLast?).getD []
  let temp :=
    if i % 8 = 0 then xorBytes (subWord (rotWord temp)) [rconVal (i / 8), 0, 0, 0]
    else if i % 8 = 4 then subWord temp
    else temp
  ws ++ [xorBytes (ws.getD (i - 8) []) temp]

/-- The AES-256 key schedule: 60 four-byte words from a 32-byte key. -/
def keySchedule (key : List Nat) : List (List Nat) :=
  keyExpandStep^[52] (chunk4 key)

/-- XOR the round key for round `r` into the state. -/
def addRoundKey (ws : List (List Nat)) (r : Nat) (s : List Nat) : List Nat :=
  xorBytes s (((ws.drop (4 * r)).take 4).flatten)

/-- Inverse byte substitution. -/
def invSubBytes (s : List Nat) : List Nat := s.map invSbox

/-- Inverse ShiftRows on the flat column-major state: row `r` is rotated right
by `r` positions. -/
def invShiftRows (s : List Nat) : List Nat :=
  let g := fun i => s.getD i 0
  [g 0, g 13, g 10, g 7, g 4, g 1, g 14, g 11, g 8, g 5, g 2, g 15, g 12, g 9, g 6, g 3]

/-- Inverse MixColumns on one 4-byte column. -/
def invMixColumn : List Nat → List Nat
  | [a0, a1, a2, a3] =>
      [mul14 a0 ^^^ mul11 a1 ^^^ mul13 a2 ^^^ mul9 a3,
       mul9 a0 ^^^ mul14 a1 ^^^ mul11 a2 ^^^ mul13 a3,
       mul13 a0 ^^^ mul9 a1 ^^^ mul14 a2 ^^^ mul11 a3,
       mul11 a0 ^^^ mul13 a1 ^^^ mul9 a2 ^^^ mul14 a3]
  | l => l

/-- Inverse MixColumns on the whole state. -/
def invMixColumns (s : List Nat) : List Nat := (chunk4 s).map invMixColumn |>.flatten

/-- AES-256 inverse cipher (FIPS-197 §5.3) on one 16-byte block. -/
def aesDecryptBlock (ws : List (List Nat)) (block : List Nat) : List Nat :=
  let s0 := addRoundKey ws 14 block
  let s1 := (List.range 13).foldl
    (fun s i => invMixColumns (addRoundKey ws (13 - i) (invSubBytes (invShiftRows s)))) s0
  addRoundKey ws 0 (invSubBytes (invShiftRows s1))

/-- Split a byte list into 16-byte blocks (callers guarantee the length is a
multiple of 16; a ragged tail is dropped). -/
def chunk16 : List Nat → List (List Nat)
  | b0 :: b1 :: b2 :: b3 :: b4 :: b5 :: b6 :: b7 ::
    b8 :: b9 :: b10 :: b11 :: b12 :: b13 :: b14 :: b15 :: rest =>
      [b0, b1, b2, b3, b4, b5, b6, b7, b8, b9, b10, b11, b12, b13, b14, b15] :: chunk16 rest
  | _ => []

/-- CBC chaining for decryption: each plaintext block is the block decryption
XORed with the previous ciphertext block (the IV for the first block). -/
def cbcChain (ws : List (List Nat)) (prev : List Nat) : List (List Nat) → List Nat
  | [] => []
  | blk :: rest => xorBytes (aesDecryptBlock ws blk) prev ++ cbcChain ws blk rest

/-- Model of Go `cipher.NewCBCDecrypter(aes.NewCipher(key), iv).CryptBlocks`:
AES-256-CBC decryption of `ct` under 32-byte `key` and 16-byte `iv`. -/
def aesCbcDecrypt (key iv ct : List Nat) : List Nat :=
  cbcChain (keySchedule key) iv (chunk16 ct)

/-- Sanity check of the AES-256 model against the FIPS-197 Appendix C.3
known-answer vector. -/
theorem aesDecryptBlock_fips197_c3 :
    aesDecryptBlock (keySchedule
      [0, 1, 2, 3, 4, 5, 6, 7, 8, 9, 10, 11, 12, 13, 14, 15, 16, 17, 18, 19,
       20, 21, 22, 23, 24, 25, 26, 27, 28, 29, 30, 31])
      [142, 162, 183, 202, 81, 103, 69, 191, 234, 252, 73, 144, 75, 73, 96, 137] =
    [0, 17, 34, 51, 68, 85, 102, 119, 136, 153, 170, 187, 204, 221, 238, 255] := by
  decide

/-! ## Webhook payload decryption (`pkcs7Unpad`, `decryptWebhookPayload`) -/

/-- Model of `pkcs7Unpad(data, blockSize)`: reject empty or misaligned data,
read the final byte as the pad length, reject a pad of 0, one exceeding the
block size or the buffer, or trailing bytes not all equal to the pad; else
strip the pad. -/
def pkcs7Unpad (data : List Nat) (blockSize : Nat) : Option (List Nat) :=
  if data.length = 0 ∨ data.length % blockSize ≠ 0 then none
  else
    let pad := (data.getLast?).getD 0
    if pad = 0 ∨ pad > blockSize ∨ pad > data.length then none
    else if (data.drop (data.length - pad)).any (fun b => decide (b ≠ pad)) then none
    else some (data.take (data.length - pad))

/-- The distinct failure modes of `decryptWebhookPayload`, one per `fmt.Errorf`
site (`aes.NewCipher` cannot fail since the normalized key is exactly 32
bytes). -/
inductive DecryptError where
  | missingKey
  | badOuterBase64
  | payloadTooShort
  | badInnerBase64
  | blockMisaligned
  | badPadding
deriving DecidableEq

/-- Key normalization from `decryptWebhookPayload`: zero-pad a short key on
the right to 32 bytes, truncate a long key to its first 32 bytes. -/
def normalizeKey (keyBytes : List Nat) : List Nat :=
  if keyBytes.length < 32 then keyBytes ++ List.replicate (32 - keyBytes.length) 0
  else if keyBytes.length > 32 then keyBytes.take 32
  else keyBytes

/-- Model of `decryptWebhookPayload(encrypted, encryptKey)`, parameterized over
the CBC block-cipher decryption core `cbc : key → iv → ciphertext →
plaintext` standing for `crypto/aes` + `crypto/cipher`: require a configured
key, normalize it, base64-decode the outer payload, split off the 16-byte IV,
base64-decode the inner ciphertext, require 16-byte alignment, decrypt, and
strip PKCS7 padding. -/
def decryptWebhookPayloadWith (cbc : List Nat → List Nat → List Nat → List Nat)
    (encrypted encryptKey : List Nat) : Except DecryptError (List Nat) :=
  if encryptKey = [] then .error .missingKey
  else
    let keyBytes := normalizeKey encryptKey
    match base64Decode encrypted with
    | none => .error .badOuterBase64
    | some payload =>
      if payload.length ≤ 16 then .error .payloadTooShort
      else
        let iv := payload.take 16
        let cipherBase64 := payload.drop 16
        match base64Decode cipherBase64 with
        | none => .error .badInnerBase64
        | some cipherText =>
          if cipherText.length % 16 ≠ 0 then .error .blockMisaligned
          else
            match pkcs7Unpad (cbc keyBytes iv cipherText) 16 with
            | none => .error .badPadding
            | some plainText => .ok plainText

/-- `decryptWebhookPayload` with the concrete AES-256-CBC core. -/
def decryptWebhookPayload (encrypted encryptKey : List Nat) :
    Except DecryptError (List Nat) :=
  decryptWebhookPayloadWith aesCbcDecrypt encrypted encryptKey

/-- Decidable equality of `Except` values, needed to evaluate the model on
concrete inputs. -/
instance instDecEqExcept {ε α : Type} [DecidableEq ε] [DecidableEq α] :
    DecidableEq (Except ε α) := fun x y =>
  match x, y with
  | .error a, .error b =>
      if h : a = b then .isTrue (congrArg Except.error h)
      else .isFalse (fun he => h (by cases he; rfl))
  | .error _, .ok _ => .isFalse (fun he => Except.noConfusion he)
  | .ok _, .error _ => .isFalse (fun he => Except.noConfusion he)
  | .ok a, .ok b =>
      if h : a = b then .isTrue (congrArg Except.ok h)
      else .isFalse (fun he => h (by cases he; rfl))

/-- A fully valid encrypted envelope: under the key `"k"` (byte 107) it
decrypts to the two bytes `"hi"`. -/
def demoEnc : List Nat :=
  [65, 65, 69, 67, 65, 119, 81, 70, 66, 103, 99, 73, 67, 81, 111, 76, 68, 65,
   48, 79, 68, 48, 100, 117, 100, 84, 73, 50, 84, 69, 89, 51, 83, 84, 104, 88,
   83, 87, 120, 49, 83, 109, 82, 116, 86, 84, 107, 119, 81, 50, 99, 57, 80, 81,
   61, 61]

theorem demoEnc_decrypts : decryptWebhookPayload demoEnc [107] = .ok [104, 105] := by
  decide

/-! ## JSON values and Go `encoding/json` unmarshalling into the repo's structs

A `Json` value stands for a parsed JSON document.  Turning raw body bytes into
a `Json` value (Go's syntactic JSON parser) is kept as an abstract function
parameter `parseJson : List Nat → Option Json` in the request pipeline, since
no claim depends on JSON lexical syntax; `none` models a syntax error.
Unmarshalling a parsed value into the repo's concrete structs is modelled
concretely below, following Go semantics: unknown object fields are ignored,
an absent or `null` field leaves the zero value, a type-mismatched field is an
error, a top-level `null` leaves the whole struct at its zero value, and any
other non-object top level is an error.  For a repeated key the last
occurrence wins. -/

/-- A parsed JSON value (numbers restricted to integers, which covers every
field the repo reads). -/
inductive Json where
  | null
  | bool (b : Bool)
  | num (n : Int)
  | str (s : String)
  | arr (elems : List Json)
  | obj (fields : List (String × Json))

/-- Last binding of key `k` in an object's field list. -/
def jsonField (fields : List (String × Json)) (k : String) : Option Json :=
  ((fields.filter (fun p => p.1 = k)).getLast?).map (fun p => p.2)

/-- Go unmarshalling of object field `k` into a `string` struct field:
absent or `null` yields the zero value `""`, a string yields itself, any other
value is an unmarshal error. -/
def getStringField (fields : List (String × Json)) (k : String) : Option String :=
  match jsonField fields k with
  | none => some ""
  | some .null => some ""
  | some (.str s) => some s
  | some _ => none

/-- Go unmarshalling of object field `k` into an `int` struct field. -/
def getIntField (fields : List (String × Json)) (k : String) : Option Int :=
  match jsonField fields k with
  | none => some 0
  | some .null => some 0
  | some (.num n) => some n
  | some _ => none

/-- The `WebhookMessage` envelope `{s, d, sn}`; `d` is a `json.RawMessage`,
modelled as the parsed value of the raw text (`none` when the field is absent,
leaving the `RawMessage` nil). -/
structure WebhookMessage where
  s : Int
  d : Option Json
  sn : Int

/-- Go unmarshalling of a parsed JSON value into `WebhookMessage`. -/
def unmarshalWebhookMessage : Json → Option WebhookMessage
  | .null => some ⟨0, none, 0⟩
  | .obj fs => do
      let s ← getIntField fs "s"
      let sn ← getIntField fs "sn"
      pure ⟨s, jsonField fs "d", sn⟩
  | _ => none

/-- The `encrypt` field extracted by unmarshalling into
`encryptedWebhookMessage`; `none` is an unmarshal error. -/
def unmarshalEncrypted : Json → Option String
  | .null => some ""
  | .obj fs => getStringField fs "encrypt"
  | _ => none

/-- The `webhookPayloadMeta` struct `{channel_type, verify_token, challenge}`. -/
structure WebhookPayloadMeta where
  channelType : String
  verifyToken : String
  challenge : String
deriving DecidableEq

/-- Go unmarshalling of the raw `d` field into `webhookPayloadMeta` (a nil
`RawMessage` is an unmarshal error). -/
def unmarshalMeta : Option Json → Option WebhookPayloadMeta
  | none => none
  | some .null => some ⟨"", "", ""⟩
  | some (.obj fs) => do
      let ct ← getStringField fs "channel_type"
      let vt ← getStringField fs "verify_token"
      let ch ← getStringField fs "challenge"
      pure ⟨ct, vt, ch⟩
  | some _ => none

/-- Modelled from the spec: the `Event` record is defined outside the given
source files; spec §3 gives `Event: { type: int, content: string, raw
fields... }` and dispatch keyed by `event.type`. -/
structure Event where
  type : Int
  content : String
deriving DecidableEq

/-- Go unmarshalling of the raw `d` field into `Event`. -/
def unmarshalEvent : Option Json → Option Event
  | none => none
  | some .null => some ⟨0, ""⟩
  | some (.obj fs) => do
      let t ← getIntField fs "type"
      let c ← getStringField fs "content"
      pure ⟨t, c⟩
  | some _ => none

/-! ## The webhook handler -/

/-- Modelled from the spec: the reserved event signal constant `SignalEvent`
is defined outside the given source files; the spec's concrete scenario (§8)
sends `{"s":0, ...}` down the event/challenge path, so the constant is 0. -/
def SignalEvent : Int := 0

/-- The reserved challenge marker compared case-insensitively against
`channel_type`. -/
def challengeMarker : String := "WEBHOOK_CHALLENGE"

/-- ASCII lower-casing of one character. -/
def asciiLower (c : Char) : Char :=
  if 65 ≤ c.toNat ∧ c.toNat ≤ 90 then Char.ofNat (c.toNat + 32) else c

/-- Model of Go `strings.ToLower` (ASCII case folding suffices for every
string the repo compares). -/
def lowerStr (s : String) : String := ⟨s.data.map asciiLower⟩

/-- Whether a character is whitespace for Go `strings.TrimSpace` (ASCII
whitespace suffices for the headers compared here). -/
def isSpaceChar (c : Char) : Bool :=
  decide (c.toNat = 32 ∨ (9 ≤ c.toNat ∧ c.toNat ≤ 13))

/-- Model of Go `strings.TrimSpace`: drop whitespace from both ends. -/
def trimStr (s : String) : String :=
  ⟨(((s.data.dropWhile isSpaceChar).reverse.dropWhile isSpaceChar).reverse : List Char)⟩

/-- Model of Go `strings.EqualFold` (ASCII case folding suffices for every
string the repo compares). -/
def eqFold (a b : String) : Bool := lowerStr a == lowerStr b

/-- The `WebhookHandler` configuration and registry state: the configured
encryption key (as bytes of the Go string), the configured verify token, and
the handler registry mapping an event type to the identifiers of its
registered handlers in registration order.  The `client`/logger field only
logs and is omitted. -/
structure WebhookHandler where
  encryptKey : List Nat
  verifyToken : String
  eventHandlers : Int → List Nat

/-- Model of `OnEvent`: append a handler to the list registered for
`eventType`. -/
def onEvent (wh : WebhookHandler) (eventType : Int) (handler : Nat) : WebhookHandler :=
  { wh with eventHandlers := fun t =>
      if t = eventType then wh.eventHandlers t ++ [handler] else wh.eventHandlers t }

/-- The distinct failure modes of `handleMessage`/`handleEvent`, one per
`fmt.Errorf` site. -/
inductive HandleError where
  | malformedMeta
  | tokenMismatch
  | malformedEvent
deriving DecidableEq

/-- One spawned handler invocation: which registered handler is started, on
which event value. -/
structure Invocation where
  handler : Nat
  event : Event
deriving DecidableEq

/-- Model of `handleEvent`: parse the raw `d` into an `Event`, snapshot the
handlers registered for `event.Type`, and spawn one task per handler in
registration order.  The returned list is the spawned invocations. -/
def handleEvent (wh : WebhookHandler) (msg : WebhookMessage) :
    Except HandleError (List Invocation) :=
  match unmarshalEvent msg.d with
  | none => .error .malformedEvent
  | some event =>
      .ok ((wh.eventHandlers event.type).map (fun h => ⟨h, event⟩))

/-- Model of `handleMessage`: a non-event signal is ignored; otherwise parse
the metadata, check the verify token when one is configured, answer a
challenge, and otherwise dispatch the event.  The result is the challenge
string (empty when there is none) together with the spawned invocations. -/
def handleMessage (wh : WebhookHandler) (msg : WebhookMessage) :
    Except HandleError (String × List Invocation) :=
  if msg.s ≠ SignalEvent then .ok ("", [])
  else
    match unmarshalMeta msg.d with
    | none => .error .malformedMeta
    | some meta =>
      if wh.verifyToken ≠ "" ∧ meta.verifyToken ≠ wh.verifyToken then
        .error .tokenMismatch
      else if eqFold meta.channelType challengeMarker ∧ meta.challenge ≠ "" then
        .ok (meta.challenge, [])
      else
        (handleEvent wh msg).map (fun invs => ("", invs))

/-- The HTTP responses `HandleRequest` can produce, with their bodies. -/
inductive Response where
  | methodNotAllowed
  | badRequest
  | unauthorized
  | okChallenge (challenge : String)
  | okCode
deriving DecidableEq

/-- The HTTP status code of each response. -/
def statusCode : Response → Nat
  | .methodNotAllowed => 405
  | .badRequest => 400
  | .unauthorized => 401
  | .okChallenge _ => 200
  | .okCode => 200

/-- The response mapping of `HandleRequest` after the envelope has parsed:
any `handleMessage` error answers 401, a non-empty challenge answers 200 with
`{"challenge": <value>}`, anything else answers 200 with `{"code":0}`.  The
second component is the spawned invocations. -/
def respondToMessage (wh : WebhookHandler) (msg : WebhookMessage) :
    Response × List Invocation :=
  match handleMessage wh msg with
  | .error _ => (.unauthorized, [])
  | .ok (ch, invs) => if ch ≠ "" then (.okChallenge ch, invs) else (.okCode, invs)

/-- The tail of `HandleRequest` from the `json.Unmarshal` of the decrypted
body onward: a parse failure answers 400, otherwise hand over to the message
logic. -/
def finishRequest (wh : WebhookHandler) (parsed : Option WebhookMessage) :
    Response × List Invocation :=
  match parsed with
  | none => (.badRequest, [])
  | some msg => respondToMessage wh msg

/-- The failure modes of `decodeRequestBody`: a broken compressed stream, or
an unsupported `Content-Encoding` value. -/
inductive TransportError where
  | streamError
  | unsupported
deriving DecidableEq

/-- Model of `decodeRequestBody`, parameterized over the gzip and zlib
readers (`none` models a stream open/read failure): trim and lowercase the
`Content-Encoding` value, pass `""`/`"identity"` through, inflate `"gzip"`
and `"deflate"`, and reject anything else as unsupported. -/
def decodeRequestBody (gunzip inflate : List Nat → Option (List Nat))
    (body : List Nat) (encoding : String) : Except TransportError (List Nat) :=
  match lowerStr (trimStr encoding) with
  | "" => .ok body
  | "identity" => .ok body
  | "gzip" =>
      match gunzip body with
      | none => .error .streamError
      | some b => .ok b
  | "deflate" =>
      match inflate body with
      | none => .error .streamError
      | some b => .ok b
  | _ => .error .unsupported

/-- Model of `tryDecryptBody`: if the body does not unmarshal as
`encryptedWebhookMessage`, or the `encrypt` field is empty, pass the body
through unchanged; otherwise decrypt the field's byte sequence. -/
def tryDecryptBody (wh : WebhookHandler) (parseJson : List Nat → Option Json)
    (body : List Nat) : Except DecryptError (List Nat) :=
  match parseJson body with
  | none => .ok body
  | some j =>
    match unmarshalEncrypted j with
    | none => .ok body
    | some enc =>
      if enc = "" then .ok body
      else decryptWebhookPayload (enc.toUTF8.toList.map (fun b => b.toNat)) wh.encryptKey

/-- Model of `HandleRequest`, parameterized over the compression readers and
the JSON syntax parser: reject non-POST, decode the transport encoding,
decrypt, parse the envelope, and respond. -/
def handleRequest (wh : WebhookHandler) (gunzip inflate : List Nat → Option (List Nat))
    (parseJson : List Nat → Option Json) (method : String) (encoding : String)
    (rawBody : List Nat) : Response × List Invocation :=
  if method ≠ "POST" then (.methodNotAllowed, [])
  else
    match decodeRequestBody gunzip inflate rawBody encoding with
    | .error _ => (.badRequest, [])
    | .ok body =>
      match tryDecryptBody wh parseJson body with
      | .error _ => (.badRequest, [])
      | .ok body2 =>
        finishRequest wh ((parseJson body2).bind unmarshalWebhookMessage)

/-! ## Handler execution (fire-and-forget goroutines with panic recovery)

Each spawned invocation runs as its own task whose body is wrapped in a
`defer`/`recover`; an outcome function assigns each handler's behaviour, and
running the spawned list yields one terminal outcome per invocation — a panic
is recovered inside its own task, so every sibling still runs and the response
is unaffected. -/

/-- How one handler invocation terminates. -/
inductive HandlerOutcome where
  | completed
  | panicked
deriving DecidableEq

/-- Run every spawned invocation to its terminal outcome under the behaviour
assignment `behaves`; recovery guarantees one outcome per invocation. -/
def runInvocations (behaves : Nat → Event → HandlerOutcome)
    (invs : List Invocation) : List (Invocation × HandlerOutcome) :=
  invs.map (fun inv => (inv, behaves inv.handler inv.event))

/-! ## Claim theorems -/

/-- C8: a well-formed envelope whose signal kind differs from the reserved
event constant yields no authentication, no challenge, no dispatch and no
error: `handleMessage` returns the empty challenge with zero invocations and
the response is 200 with the generic success body `{"code":0}`. -/
theorem c8_ignored_signal_is_noop (wh : WebhookHandler) (msg : WebhookMessage)
    (h : msg.s ≠ SignalEvent) :
    handleMessage wh msg = .ok ("", []) ∧
    respondToMessage wh msg = (.okCode, []) ∧
    statusCode (respondToMessage wh msg).1 = 200 := by
  have hm : handleMessage wh msg = .ok ("", []) := by
    simp [handleMessage, h]
  refine ⟨hm, ?_, ?_⟩ <;> simp [respondToMessage, hm, statusCode]

/-- Witness for C8 at an ignored signal kind `s = 1`. -/
theorem c8_witness :
    handleMessage ⟨[], "", fun _ => []⟩ ⟨1, none, 0⟩ = .ok ("", []) ∧
    respondToMessage ⟨[], "", fun _ => []⟩ ⟨1, none, 0⟩ = (.okCode, []) ∧
    statusCode (respondToMessage ⟨[], "", fun _ => []⟩ ⟨1, none, 0⟩).1 = 200 :=
  c8_ignored_signal_is_noop ⟨[], "", fun _ => []⟩ ⟨1, none, 0⟩ (by decide)

/-- C3: on an event signal, a configured verify token that differs from the
event metadata's `verify_token` yields a 401 response with zero handler
invocations — whatever handlers are registered — and with no configured token
the authentication check never rejects. -/
theorem c3_token_mismatch_rejects (wh : WebhookHandler) (msg : WebhookMessage)
    (meta : WebhookPayloadMeta) (hs : msg.s = SignalEvent)
    (hm : unmarshalMeta msg.d = some meta) :
    (wh.verifyToken ≠ "" → meta.verifyToken ≠ wh.verifyToken →
        respondToMessage wh msg = (.unauthorized, []) ∧
        statusCode (respondToMessage wh msg).1 = 401) ∧
    (wh.verifyToken = "" → handleMessage wh msg ≠ .error .tokenMismatch) := by
  constructor
  · intro h1 h2
    have hmsg : handleMessage wh msg = .error .tokenMismatch := by
      simp [handleMessage, hs, hm, h1, h2]
    constructor <;> simp [respondToMessage, hmsg, statusCode]
  · intro h0
    have hcond : ¬(wh.verifyToken ≠ "" ∧ meta.verifyToken ≠ wh.verifyToken) := by
      simp [h0]
    by_cases hc : eqFold meta.channelType challengeMarker = true ∧ meta.challenge ≠ ""
    · have hmsg : handleMessage wh msg = .ok (meta.challenge, []) := by
        simp [handleMessage, hs, hm, hcond, hc.1, hc.2]
      simp [hmsg]
    · cases hu : unmarshalEvent msg.d with
      | none =>
        have hmsg : handleMessage wh msg = .error .malformedEvent := by
          simp [handleMessage, hs, hm, hcond, hc, handleEvent, hu, Except.map]
        simp [hmsg]
      | some ev =>
        have hmsg : handleMessage wh msg =
            .ok ("", (wh.eventHandlers ev.type).map (fun h => ⟨h, ev⟩)) := by
          simp [handleMessage, hs, hm, hcond, hc, handleEvent, hu, Except.map]
        simp [hmsg]

/-- Witness for C3: token `"secret"` configured, request carries `"bad"`,
a handler is registered for the event's type, yet the response is 401 with
zero invocations. -/
theorem c3_witness :
    respondToMessage ⟨[], "secret", fun _ => [7]⟩
        ⟨0, some (.obj [("verify_token", .str "bad"), ("type", .num 5)]), 0⟩ =
      (.unauthorized, []) :=
  ((c3_token_mismatch_rejects ⟨[], "secret", fun _ => [7]⟩
      ⟨0, some (.obj [("verify_token", .str "bad"), ("type", .num 5)]), 0⟩
      ⟨"", "bad", ""⟩ (by decide) (by decide)).1 (by decide) (by decide)).1

/-- C1 counterexample: a request whose decrypted body parses as a challenge
envelope (`channel_type` equal to `"WEBHOOK_CHALLENGE"`, non-empty
`challenge`) is answered 401, not 200 with the challenge, when the configured
verify token does not match the request's `verify_token`: the authenticator
runs before the challenge branch. -/
theorem c1_counterexample :
    unmarshalMeta (some (.obj [("channel_type", .str "WEBHOOK_CHALLENGE"),
        ("verify_token", .str "wrong"), ("challenge", .str "abc")])) =
      some ⟨"WEBHOOK_CHALLENGE", "wrong", "abc"⟩ ∧
    respondToMessage ⟨[], "secret", fun _ => []⟩
        ⟨0, some (.obj [("channel_type", .str "WEBHOOK_CHALLENGE"),
          ("verify_token", .str "wrong"), ("challenge", .str "abc")]), 0⟩ =
      (.unauthorized, []) ∧
    statusCode .unauthorized = 401 := by
  decide

/-- C1 amended: the challenge is echoed verbatim with a 200 response provided
the verify-token check passes first — that is, when no verify token is
configured or the request's `verify_token` matches it. -/
theorem c1_challenge_echoed_after_auth (wh : WebhookHandler) (msg : WebhookMessage)
    (meta : WebhookPayloadMeta) (hs : msg.s = SignalEvent)
    (hm : unmarshalMeta msg.d = some meta)
    (hch : eqFold meta.channelType challengeMarker = true)
    (hne : meta.challenge ≠ "")
    (hauth : wh.verifyToken = "" ∨ meta.verifyToken = wh.verifyToken) :
    respondToMessage wh msg = (.okChallenge meta.challenge, []) ∧
    statusCode (respondToMessage wh msg).1 = 200 := by
  have hcond : ¬(wh.verifyToken ≠ "" ∧ meta.verifyToken ≠ wh.verifyToken) := by
    rcases hauth with h | h <;> simp [h]
  have hmsg : handleMessage wh msg = .ok (meta.challenge, []) := by
    simp [handleMessage, hs, hm, hcond, hch, hne]
  constructor <;> simp [respondToMessage, hmsg, hne, statusCode]

/-- Witness for the amended C1: lower-case `channel_type`, no configured
token, challenge `"abc123"` echoed with status 200. -/
theorem c1_witness :
    respondToMessage ⟨[], "", fun _ => []⟩
        ⟨0, some (.obj [("channel_type", .str "webhook_challenge"),
          ("verify_token", .str "t1"), ("challenge", .str "abc123")]), 0⟩ =
      (.okChallenge "abc123", []) :=
  (c1_challenge_echoed_after_auth ⟨[], "", fun _ => []⟩
      ⟨0, some (.obj [("channel_type", .str "webhook_challenge"),
        ("verify_token", .str "t1"), ("challenge", .str "abc123")]), 0⟩
      ⟨"webhook_challenge", "t1", "abc123"⟩
      (by decide) (by decide) (by decide) (by decide) (Or.inl rfl)).1

/-- C2 counterexample: a body that decodes and decrypts, whose envelope
parses, but whose `d` payload fails to unmarshal as event metadata (here a
JSON number) is answered 401, not 400. -/
theorem c2_counterexample :
    unmarshalMeta (some (.num 5)) = none ∧
    finishRequest ⟨[], "", fun _ => []⟩ (some ⟨0, some (.num 5), 0⟩) =
      (.unauthorized, []) ∧
    statusCode .unauthorized = 401 := by
  decide

/-- C2 amended: a top-level envelope parse failure is answered 400; an
event-metadata or event-record parse failure after a successful envelope
parse is answered 401; in every such case no handler is dispatched. -/
theorem c2_malformed_payload_responses (wh : WebhookHandler) :
    (finishRequest wh none = (.badRequest, []) ∧ statusCode .badRequest = 400) ∧
    (∀ msg : WebhookMessage, msg.s = SignalEvent → unmarshalMeta msg.d = none →
        finishRequest wh (some msg) = (.unauthorized, [])) ∧
    (∀ (msg : WebhookMessage) (meta : WebhookPayloadMeta),
        msg.s = SignalEvent → unmarshalMeta msg.d = some meta →
        ¬(wh.verifyToken ≠ "" ∧ meta.verifyToken ≠ wh.verifyToken) →
        ¬(eqFold meta.channelType challengeMarker ∧ meta.challenge ≠ "") →
        unmarshalEvent msg.d = none →
        finishRequest wh (some msg) = (.unauthorized, [])) := by
  refine ⟨⟨rfl, rfl⟩, ?_, ?_⟩
  · intro msg hs hm
    have hmsg : handleMessage wh msg = .error .malformedMeta := by
      simp [handleMessage, hs, hm]
    simp [finishRequest, respondToMessage, hmsg]
  · intro msg meta hs hm hauth hnc he
    have hmsg : handleMessage wh msg = .error .malformedEvent := by
      simp [handleMessage, hs, hm, hauth, hnc, handleEvent, he, Except.map]
    simp [finishRequest, respondToMessage, hmsg]

/-- Witness for the amended C2: the envelope-failure case answers 400 and a
metadata failure (`d` a number) answers 401. -/
theorem c2_witness :
    finishRequest ⟨[], "", fun _ => []⟩ none = (.badRequest, []) ∧
    finishRequest ⟨[], "", fun _ => []⟩ (some ⟨0, some (.arr []), 0⟩) =
      (.unauthorized, []) :=
  ⟨(c2_malformed_payload_responses ⟨[], "", fun _ => []⟩).1.1,
   (c2_malformed_payload_responses ⟨[], "", fun _ => []⟩).2.1
     ⟨0, some (.arr []), 0⟩ (by decide) (by decide)⟩

/-- C9: an authenticated, non-challenge event dispatches exactly the handlers
registered for its type, once each, in registration order; every spawned
invocation runs to its own outcome whatever any sibling's behaviour, the
response is 200 `{"code":0}` independently of handler outcomes, and an
unregistered event type still answers 200 with zero invocations. -/
theorem c9_dispatch_exact (wh : WebhookHandler) (msg : WebhookMessage)
    (meta : WebhookPayloadMeta) (event : Event)
    (behaves : Nat → Event → HandlerOutcome)
    (hs : msg.s = SignalEvent) (hm : unmarshalMeta msg.d = some meta)
    (hauth : ¬(wh.verifyToken ≠ "" ∧ meta.verifyToken ≠ wh.verifyToken))
    (hnc : ¬(eqFold meta.channelType challengeMarker = true ∧ meta.challenge ≠ ""))
    (he : unmarshalEvent msg.d = some event) :
    respondToMessage wh msg =
      (.okCode, (wh.eventHandlers event.type).map (fun h => ⟨h, event⟩)) ∧
    (runInvocations behaves ((wh.eventHandlers event.type).map (fun h => ⟨h, event⟩))).map
        Prod.fst = (wh.eventHandlers event.type).map (fun h => ⟨h, event⟩) ∧
    (∀ inv ∈ (wh.eventHandlers event.type).map (fun h => (⟨h, event⟩ : Invocation)),
        (inv, behaves inv.handler inv.event) ∈
          runInvocations behaves ((wh.eventHandlers event.type).map (fun h => ⟨h, event⟩))) ∧
    (wh.eventHandlers event.type = [] →
        respondToMessage wh msg = (.okCode, []) ∧ statusCode .okCode = 200) := by
  have hmsg : handleMessage wh msg =
      .ok ("", (wh.eventHandlers event.type).map (fun h => ⟨h, event⟩)) := by
    simp [handleMessage, hs, hm, hauth, hnc, handleEvent, he, Except.map]
  refine ⟨?_, ?_, ?_, ?_⟩
  · simp [respondToMessage, hmsg]
  · simp [runInvocations, List.map_map, Function.comp]
  · intro inv hinv
    exact List.mem_map_of_mem _ hinv
  · intro hempty
    exact ⟨by simp [respondToMessage, hmsg, hempty], rfl⟩

/-- Witness for C9: two handlers registered for type 5, the first one
panicking: both are invoked exactly once, in order, and the response is 200. -/
theorem c9_witness :
    respondToMessage ⟨[], "", fun t => if t = 5 then [1, 2] else []⟩
        ⟨0, some (.obj [("type", .num 5)]), 0⟩ =
      (.okCode, [⟨1, ⟨5, ""⟩⟩, ⟨2, ⟨5, ""⟩⟩]) ∧
    runInvocations (fun h _ => if h = 1 then .panicked else .completed)
        [⟨1, ⟨5, ""⟩⟩, ⟨2, ⟨5, ""⟩⟩] =
      [(⟨1, ⟨5, ""⟩⟩, .panicked), (⟨2, ⟨5, ""⟩⟩, .completed)] := by
  have h := c9_dispatch_exact ⟨[], "", fun t => if t = 5 then [1, 2] else []⟩
      ⟨0, some (.obj [("type", .num 5)]), 0⟩ ⟨"", "", ""⟩ ⟨5, ""⟩
      (fun h _ => if h = 1 then .panicked else .completed)
      (by decide) (by decide) (by decide) (by decide) (by decide)
  exact ⟨by simpa using h.1, by decide⟩

/-- C7: a body that does not unmarshal as the encryption envelope, or
unmarshals with an empty `encrypt` field, passes through the decryption stage
unchanged with no error, whatever encryption key is configured. -/
theorem c7_plaintext_passthrough (wh : WebhookHandler)
    (parseJson : List Nat → Option Json) (body : List Nat)
    (h : parseJson body = none ∨
        ∃ j, parseJson body = some j ∧
          (unmarshalEncrypted j = none ∨ unmarshalEncrypted j = some "")) :
    tryDecryptBody wh parseJson body = .ok body := by
  rcases h with h | ⟨j, hj, h | h⟩
  · simp [tryDecryptBody, h]
  · simp [tryDecryptBody, hj, h]
  · simp [tryDecryptBody, hj, h]

/-- Witness for C7: a body that is not valid JSON passes through even though
an encryption key is configured. -/
theorem c7_witness :
    tryDecryptBody ⟨[107], "tok", fun _ => []⟩ (fun _ => none) [1, 2, 3] =
      .ok [1, 2, 3] :=
  c7_plaintext_passthrough ⟨[107], "tok", fun _ => []⟩ (fun _ => none) [1, 2, 3]
    (Or.inl rfl)

/-- C10: transport decoding keys on the trimmed, lower-cased
`Content-Encoding` value — `"GZIP"`, `" gzip "` and `"gzip"` behave
identically (likewise deflate and identity) — and exactly the values whose
trimmed, lower-cased form lies outside `{"", "identity", "gzip", "deflate"}`
are rejected as unsupported. -/
theorem c10_content_encoding_normalized (gunzip inflate : List Nat → Option (List Nat))
    (body : List Nat) :
    (decodeRequestBody gunzip inflate body "GZIP" =
        decodeRequestBody gunzip inflate body "gzip" ∧
      decodeRequestBody gunzip inflate body " gzip " =
        decodeRequestBody gunzip inflate body "gzip" ∧
      decodeRequestBody gunzip inflate body "DEFLATE" =
        decodeRequestBody gunzip inflate body "deflate" ∧
      decodeRequestBody gunzip inflate body " deflate " =
        decodeRequestBody gunzip inflate body "deflate" ∧
      decodeRequestBody gunzip inflate body "IDENTITY" =
        decodeRequestBody gunzip inflate body "identity" ∧
      decodeRequestBody gunzip inflate body " identity " =
        decodeRequestBody gunzip inflate body "identity") ∧
    (∀ encoding : String,
        decodeRequestBody gunzip inflate body encoding = .error .unsupported ↔
          ¬(lowerStr (trimStr encoding) = "" ∨ lowerStr (trimStr encoding) = "identity" ∨
            lowerStr (trimStr encoding) = "gzip" ∨ lowerStr (trimStr encoding) = "deflate")) := by
  constructor
  · refine ⟨?_, ?_, ?_, ?_, ?_, ?_⟩ <;> rfl
  · intro encoding
    by_cases h1 : lowerStr (trimStr encoding) = ""
    · simp [decodeRequestBody, h1]
    by_cases h2 : lowerStr (trimStr encoding) = "identity"
    · simp [decodeRequestBody, h2]
    by_cases h3 : lowerStr (trimStr encoding) = "gzip"
    · cases hg : gunzip body <;> simp [decodeRequestBody, h3, hg]
    by_cases h4 : lowerStr (trimStr encoding) = "deflate"
    · cases hg : inflate body <;> simp [decodeRequestBody, h4, hg]
    · simp only [decodeRequestBody]
      simp [h1, h2, h3, h4]

/-- Witness for C10 at the unsupported value `"br"`. -/
theorem c10_witness :
    decodeRequestBody (fun _ => some []) (fun _ => some []) [1, 2] "br" =
      .error .unsupported :=
  ((c10_content_encoding_normalized (fun _ => some []) (fun _ => some []) [1, 2]).2
    "br").mpr (by decide)

/-- C6: on the decrypted plaintext (non-empty, block-aligned), PKCS7
unpadding reads the final byte as the pad length `p` and fails when `p` is 0,
exceeds 16, exceeds the buffer length, or some trailing `p` bytes differ from
`p`; otherwise it returns exactly the prefix with the last `p` bytes
removed. -/
theorem c6_pkcs7_unpad_characterized (data : List Nat) (hne : data ≠ [])
    (hal : data.length % 16 = 0) :
    (data.getLast hne = 0 ∨ 16 < data.getLast hne ∨ data.length < data.getLast hne ∨
        (∃ b ∈ data.drop (data.length - data.getLast hne), b ≠ data.getLast hne) →
      pkcs7Unpad data 16 = none) ∧
    (data.getLast hne ≠ 0 → data.getLast hne ≤ 16 → data.getLast hne ≤ data.length →
      (∀ b ∈ data.drop (data.length - data.getLast hne), b = data.getLast hne) →
      pkcs7Unpad data 16 = some (data.take (data.length - data.getLast hne))) := by
  have hlen : ¬(data.length = 0 ∨ data.length % 16 ≠ 0) := by
    simp [hal, List.length_eq_zero, hne]
  have hpad : (data.getLast?).getD 0 = data.getLast hne := by
    rw [List.getLast?_eq_getLast data hne]
    rfl
  constructor
  · intro h
    by_cases h3 : data.getLast hne = 0 ∨ 16 < data.getLast hne ∨
        data.length < data.getLast hne
    · unfold pkcs7Unpad
      rw [if_neg hlen]
      simp only [hpad]
      rw [if_pos h3]
    · have hex : ∃ b ∈ data.drop (data.length - data.getLast hne),
          b ≠ data.getLast hne := by tauto
      obtain ⟨b, hb, hbne⟩ := hex
      unfold pkcs7Unpad
      rw [if_neg hlen]
      simp only [hpad]
      rw [if_neg h3, if_pos (List.any_eq_true.mpr ⟨b, hb, by simpa using hbne⟩)]
  · intro h0 h16 hlen2 hall
    unfold pkcs7Unpad
    rw [if_neg hlen]
    simp only [hpad]
    rw [if_neg (by push_neg; exact ⟨h0, h16, hlen2⟩),
      if_neg (by
        simp only [List.any_eq_true, not_exists]
        intro b
        simp only [not_and, decide_eq_true_eq]
        intro hb
        simp [hall b hb])]

/-- Witness for C6: sixteen bytes `1` unpad to fifteen bytes `1`. -/
theorem c6_witness :
    pkcs7Unpad [1, 1, 1, 1, 1, 1, 1, 1, 1, 1, 1, 1, 1, 1, 1, 1] 16 =
      some [1, 1, 1, 1, 1, 1, 1, 1, 1, 1, 1, 1, 1, 1, 1] := by
  rw [(c6_pkcs7_unpad_characterized [1, 1, 1, 1, 1, 1, 1, 1, 1, 1, 1, 1, 1, 1, 1, 1]
      (by decide) (by decide)).2 (by decide) (by decide) (by decide) (by decide)]
  rfl

/-- Zero-padding a key shorter than 32 bytes does not change its normalized
form. -/
theorem normalizeKey_zeroPad (key : List Nat) (h : key.length < 32) :
    normalizeKey (key ++ List.replicate (32 - key.length) 0) = normalizeKey key := by
  have hl : (key ++ List.replicate (32 - key.length) 0).length = 32 := by
    simp
    omega
  unfold normalizeKey
  rw [hl]
  simp [h]

/-- Truncating a key longer than 32 bytes does not change its normalized
form. -/
theorem normalizeKey_take (key : List Nat) (h : 32 < key.length) :
    normalizeKey (key.take 32) = normalizeKey key := by
  have hl : (key.take 32).length = 32 := by
    simp
    omega
  have h1 : ¬key.length < 32 := by omega
  unfold normalizeKey
  rw [hl]
  simp [h, h1]

/-- `decryptWebhookPayload` uses the key only through the emptiness check and
`normalizeKey`: two non-empty keys with the same normalized form decrypt
identically, for every cipher core. -/
theorem decrypt_depends_on_normalized_key (cbc : List Nat → List Nat → List Nat → List Nat)
    (encrypted k1 k2 : List Nat) (h1 : k1 ≠ []) (h2 : k2 ≠ [])
    (hn : normalizeKey k1 = normalizeKey k2) :
    decryptWebhookPayloadWith cbc encrypted k1 =
      decryptWebhookPayloadWith cbc encrypted k2 := by
  unfold decryptWebhookPayloadWith
  simp [h1, h2, hn]

/-- An envelope encrypted under the all-zero 32-byte key (the zero-padded
form of the empty key): it decrypts to the single byte `"x"`. -/
def c4Enc : List Nat :=
  [65, 65, 65, 65, 65, 65, 65, 65, 65, 65, 65, 65, 65, 65, 65, 65, 65, 65,
   65, 65, 65, 69, 53, 114, 85, 110, 86, 83, 85, 72, 104, 52, 84, 108, 104,
   122, 77, 121, 57, 81, 90, 70, 100, 115, 86, 51, 66, 77, 83, 51, 99, 57,
   80, 81, 61, 61]

/-- C4 counterexample: the empty key refutes the claim for keys shorter than
32 bytes — decryption with `""` fails with the missing-key error, while its
zero-padded 32-byte form decrypts this envelope successfully. -/
theorem c4_counterexample :
    ([] : List Nat).length < 32 ∧
    ([] : List Nat) ++ List.replicate (32 - ([] : List Nat).length) 0 =
      List.replicate 32 0 ∧
    decryptWebhookPayload c4Enc [] = .error .missingKey ∧
    decryptWebhookPayload c4Enc (List.replicate 32 0) = .ok [120] := by
  decide

/-- C4 amended: for every *non-empty* key shorter than 32 bytes, decryption
equals decryption with the key zero-padded on the right to 32 bytes, and for
every key longer than 32 bytes, decryption equals decryption with its first
32 bytes; the empty key alone is excepted, failing the missing-key check
before normalization. -/
theorem c4_key_normalization (encrypted key : List Nat) :
    (key ≠ [] → key.length < 32 →
      decryptWebhookPayload encrypted key =
        decryptWebhookPayload encrypted (key ++ List.replicate (32 - key.length) 0)) ∧
    (32 < key.length →
      decryptWebhookPayload encrypted key =
        decryptWebhookPayload encrypted (key.take 32)) := by
  constructor
  · intro hne hlt
    have hpadlen : (key ++ List.replicate (32 - key.length) 0).length = 32 := by
      simp
      omega
    have hpad : key ++ List.replicate (32 - key.length) 0 ≠ [] := by
      intro hc
      rw [hc] at hpadlen
      simp at hpadlen
    exact decrypt_depends_on_normalized_key aesCbcDecrypt encrypted key _ hne hpad
      (normalizeKey_zeroPad key hlt).symm
  · intro hgt
    have htakelen : (key.take 32).length = 32 := by
      simp
      omega
    have htake : key.take 32 ≠ [] := by
      intro hc
      rw [hc] at htakelen
      simp at htakelen
    have hne : key ≠ [] := by
      intro hc
      rw [hc] at hgt
      simp at hgt
    exact decrypt_depends_on_normalized_key aesCbcDecrypt encrypted key _ hne htake
      (normalizeKey_take key hgt).symm

/-- Witness for the amended C4: the demo envelope decrypts identically under
the key `"k"` and its zero-padded form, and identically under a 33-byte key
and its first 32 bytes. -/
theorem c4_witness :
    decryptWebhookPayload demoEnc [107] =
      decryptWebhookPayload demoEnc ([107] ++ List.replicate 31 0) ∧
    decryptWebhookPayload demoEnc (107 :: List.replicate 32 0) =
      decryptWebhookPayload demoEnc ((107 :: List.replicate 32 0).take 32) := by
  constructor
  · have h := (c4_key_normalization demoEnc [107]).1 (by decide) (by decide)
    simpa using h
  · exact (c4_key_normalization demoEnc (107 :: List.replicate 32 0)).2 (by decide)

/-- The envelope refuting C5: a syntactically well-formed encrypted payload
(valid nested base64, block-aligned 16-byte ciphertext) whose decryption
under the key `"k"` produces an all-zero plaintext, so PKCS7 unpadding
fails. -/
def c5Enc : List Nat :=
  [78, 118, 69, 75, 88, 79, 67, 85, 110, 79, 97, 73, 112, 65, 118, 107, 90,
   116, 70, 74, 73, 48, 70, 66, 81, 85, 70, 66, 81, 85, 70, 66, 81, 85, 70,
   66, 81, 85, 70, 66, 81, 85, 70, 66, 81, 85, 70, 66, 81, 85, 69, 57, 80,
   81, 61, 61]

/-- The decoded outer payload of `c5Enc`: a 16-byte IV followed by the base64
text of sixteen zero bytes. -/
def c5Payload : List Nat :=
  [54, 241, 10, 92, 224, 148, 156, 230, 136, 164, 11, 228, 102, 209, 73, 35,
   65, 65, 65, 65, 65, 65, 65, 65, 65, 65, 65, 65, 65, 65, 65, 65, 65, 65,
   65, 65, 65, 65, 61, 61]

/-- C5 counterexample: `c5Enc` under key `"k"` passes every one of the five
listed checks — key configured, outer base64 valid, payload longer than 16
bytes, inner base64 valid, ciphertext length a multiple of 16 — and
decryption still fails, with the padding error. -/
theorem c5_counterexample :
    ([107] : List Nat) ≠ [] ∧
    base64Decode c5Enc = some c5Payload ∧
    ¬(c5Payload.length ≤ 16) ∧
    base64Decode (c5Payload.drop 16) = some (List.replicate 16 0) ∧
    (List.replicate 16 0 : List Nat).length % 16 = 0 ∧
    decryptWebhookPayload c5Enc [107] = .error .badPadding := by
  decide

/-- C5 amended: decryption fails exactly when one of the five listed
conditions holds — checked in the listed order — or when, all five checks
passing, PKCS7 unpadding of the AES-CBC-decrypted plaintext fails; the
block-alignment check precedes any AES decryption (its outcome is the same
for every cipher core). -/
theorem c5_decrypt_failure_characterized (encrypted key : List Nat) :
    (key = [] → decryptWebhookPayload encrypted key = .error .missingKey) ∧
    (key ≠ [] → base64Decode encrypted = none →
        decryptWebhookPayload encrypted key = .error .badOuterBase64) ∧
    (∀ payload, key ≠ [] → base64Decode encrypted = some payload →
        payload.length ≤ 16 →
        decryptWebhookPayload encrypted key = .error .payloadTooShort) ∧
    (∀ payload, key ≠ [] → base64Decode encrypted = some payload →
        16 < payload.length → base64Decode (payload.drop 16) = none →
        decryptWebhookPayload encrypted key = .error .badInnerBase64) ∧
    (∀ (cbc : List Nat → List Nat → List Nat → List Nat) (payload ct : List Nat),
        key ≠ [] → base64Decode encrypted = some payload → 16 < payload.length →
        base64Decode (payload.drop 16) = some ct → ct.length % 16 ≠ 0 →
        decryptWebhookPayloadWith cbc encrypted key = .error .blockMisaligned) ∧
    (∀ payload ct, key ≠ [] → base64Decode encrypted = some payload →
        16 < payload.length → base64Decode (payload.drop 16) = some ct →
        ct.length % 16 = 0 →
        pkcs7Unpad (aesCbcDecrypt (normalizeKey key) (payload.take 16) ct) 16 = none →
        decryptWebhookPayload encrypted key = .error .badPadding) ∧
    (∀ e, decryptWebhookPayload encrypted key = .error e →
        key = [] ∨ base64Decode encrypted = none ∨
          ∃ payload, base64Decode encrypted = some payload ∧
            (payload.length ≤ 16 ∨ base64Decode (payload.drop 16) = none ∨
              ∃ ct, base64Decode (payload.drop 16) = some ct ∧
                (ct.length % 16 ≠ 0 ∨
                  pkcs7Unpad (aesCbcDecrypt (normalizeKey key) (payload.take 16) ct) 16 =
                    none))) := by
  refine ⟨?_, ?_, ?_, ?_, ?_, ?_, ?_⟩
  · intro hk
    simp [decryptWebhookPayload, decryptWebhookPayloadWith, hk]
  · intro hk hb
    simp [decryptWebhookPayload, decryptWebhookPayloadWith, hk, hb]
  · intro payload hk hb hp
    simp [decryptWebhookPayload, decryptWebhookPayloadWith, hk, hb, hp]
  · intro payload hk hb hp hc
    simp [decryptWebhookPayload, decryptWebhookPayloadWith, hk, hb,
      show ¬payload.length ≤ 16 from by omega, hc]
  · intro cbc payload ct hk hb hp hc ha
    simp [decryptWebhookPayloadWith, hk, hb,
      show ¬payload.length ≤ 16 from by omega, hc, ha]
  · intro payload ct hk hb hp hc ha hu
    simp [decryptWebhookPayload, decryptWebhookPayloadWith, hk, hb,
      show ¬payload.length ≤ 16 from by omega, hc, ha, hu]
  · intro e h
    by_cases hk : key = []
    · exact Or.inl hk
    cases hb : base64Decode encrypted with
    | none => exact Or.inr (Or.inl rfl)
    | some payload =>
      refine Or.inr (Or.inr ⟨payload, rfl, ?_⟩)
      by_cases hp : payload.length ≤ 16
      · exact Or.inl hp
      cases hc : base64Decode (payload.drop 16) with
      | none => exact Or.inr (Or.inl rfl)
      | some ct =>
        refine Or.inr (Or.inr ⟨ct, rfl, ?_⟩)
        by_cases ha : ct.length % 16 = 0
        · cases hu : pkcs7Unpad (aesCbcDecrypt (normalizeKey key) (payload.take 16) ct) 16 with
          | none => exact Or.inr rfl
          | some pt =>
            exfalso
            have hok : decryptWebhookPayload encrypted key = .ok pt := by
              simp [decryptWebhookPayload, decryptWebhookPayloadWith, hk, hb, hp, hc,
                ha, hu]
            rw [hok] at h
            exact Except.noConfusion h
        · exact Or.inl ha

/-- Witness for the amended C5 at the missing-key case. -/
theorem c5_witness : decryptWebhookPayload [33] [] = .error .missingKey :=
  (c5_decrypt_failure_characterized [33] []).1 rfl

end KookWebhook
